import Mathlib

set_option maxHeartbeats 1000000
set_option maxRecDepth 100000

/- Verification of the deal-research report generator
   (backend/src/streamlit_app.py) against its design specification.

   The Python module is embedded shallowly: every definition below is a
   direct translation of a fragment of the source file, with Python
   strings modelled as Lean `String` (a list of characters) and the
   Python string primitives used by the source (`strip`, `split`,
   `replace`, `title`, `lower`, `isupper`, `startswith`, `in`)
   re-implemented for the ASCII data this application handles. -/

namespace StreamlitApp

/- Python string primitives. -/

/-- Characters treated as whitespace by Python `str.strip()` (ASCII range). -/
def pyWhitespace (c : Char) : Bool :=
  c = ' ' || c = '\t' || c = '\n' || c = '\r' || c = '\x0b' || c = '\x0c'

def pyStripList (l : List Char) : List Char :=
  ((l.dropWhile pyWhitespace).reverse.dropWhile pyWhitespace).reverse

/-- Python `s.strip()`. -/
def pyStrip (s : String) : String := ⟨pyStripList s.data⟩

/-- Python `s.lower()` (ASCII). -/
def pyLower (s : String) : String := ⟨s.data.map Char.toLower⟩

def pyTitleAux : Bool → List Char → List Char
  | _, [] => []
  | prevAlpha, c :: cs =>
    (if c.isAlpha then (if prevAlpha then c.toLower else c.toUpper) else c)
      :: pyTitleAux c.isAlpha cs

/-- Python `s.title()` (ASCII): the first letter of each maximal run of
letters is upper-cased, the remaining letters lower-cased. -/
def pyTitle (s : String) : String := ⟨pyTitleAux false s.data⟩

/-- Python `s.replace(pat, rep)` on character lists, scanning left to right
and replacing non-overlapping occurrences.  The `fuel` argument is only a
structural-termination device; every call supplies `fuel = input length`,
which is always sufficient because each step consumes at least one
character. -/
def pyReplaceAux (p : Char) (ps rep : List Char) : Nat → List Char → List Char
  | _, [] => []
  | 0, l => l
  | fuel + 1, c :: cs =>
    if (p :: ps).isPrefixOf (c :: cs) then
      rep ++ pyReplaceAux p ps rep fuel (cs.drop ps.length)
    else
      c :: pyReplaceAux p ps rep fuel cs

/-- Python `s.replace(pat, rep)` for a non-empty pattern (every use in the
source file has a non-empty literal pattern). -/
def pyReplaceStr (s pat rep : String) : String :=
  match pat.data with
  | [] => s
  | p :: ps => ⟨pyReplaceAux p ps rep.data s.data.length s.data⟩

/-- Python `s.startswith(pre)`. -/
def pyStartsWith (pre s : String) : Bool := pre.data.isPrefixOf s.data

def containsSub (sub : List Char) : List Char → Bool
  | [] => sub.isEmpty
  | c :: t => sub.isPrefixOf (c :: t) || containsSub sub t

/-- Python `sub in s` (substring containment). -/
def pyIn (sub s : String) : Bool := containsSub sub.data s.data

/-- Python `s.isupper()` (ASCII): at least one letter, and no lower-case
letter. -/
def pyIsUpper (s : String) : Bool :=
  s.data.any Char.isAlpha && s.data.all (fun c => !c.isLower)

def splitLinesAux : List Char → List Char → List String
  | [], acc => [⟨acc.reverse⟩]
  | c :: cs, acc =>
    if c = '\n' then String.mk acc.reverse :: splitLinesAux cs []
    else splitLinesAux cs (c :: acc)

/-- Python `s.split('\n')`: split at every newline, keeping empty pieces. -/
def pySplitLines (s : String) : List String := splitLinesAux s.data []

/- Data model (section 3 of the design note): only the fields the verified
   logic reads are modelled; the remaining deal attributes are opaque to
   every claim and are carried inside the serialized JSON string that the
   prompt builder embeds verbatim. -/

structure Deal where
  target_company_name : String
deriving DecidableEq

structure Portfolio where
  investor : String
  portfolio_url : Option String
  deals : List Deal
deriving DecidableEq

structure Catalog where
  portfolios : List Portfolio
deriving DecidableEq

/- Deal catalog loader (streamlit_app.py, load_deal_data).  The filesystem
   is modelled as a map from path to file state: a path is absent, or holds
   a file that fails JSON parsing, or holds a file parsing to a catalog. -/

inductive FileState where
  | absent
  | invalid
  | valid (c : Catalog)
deriving DecidableEq

/-- The candidate locations probed by load_deal_data, in source order; the
fourth is `os.path.join(os.path.dirname(__file__), ...)`, parameterised here
by the script directory. -/
def possible_paths (scriptDir : String) : List String :=
  ["src/scraped_companies_final.json",
   "../src/scraped_companies_final.json",
   "backend/src/scraped_companies_final.json",
   scriptDir ++ "/scraped_companies_final.json"]

/-- The hard-coded last-resort path of load_deal_data. -/
def absolute_path : String :=
  "/home/walker/Desktop/deepsearch_gemini/gemini-fullstack-langgraph-quickstart/backend/src/scraped_companies_final.json"

/-- The `for path in possible_paths` loop: the first path that exists is
opened and parsed; a parse failure raises (Except.error), ending the loop.
`none` means the loop fell through with no path existing. -/
def loadLoop (fs : String → FileState) : List String → Option (Except Unit Catalog)
  | [] => none
  | p :: rest =>
    match fs p with
    | FileState.absent => loadLoop fs rest
    | FileState.invalid => some (Except.error ())
    | FileState.valid c => some (Except.ok c)

/-- The body of the `try:` block of load_deal_data: probe the candidate
list, then fall back to opening the absolute path (which raises when the
file is absent or unparseable). -/
def load_attempt (fs : String → FileState) (scriptDir : String) : Except Unit Catalog :=
  match loadLoop fs (possible_paths scriptDir) with
  | some r => r
  | none =>
    match fs absolute_path with
    | FileState.valid c => Except.ok c
    | _ => Except.error ()

/-- load_deal_data: the `except` clause catches every exception from the
try-body and returns the empty catalog, so the function is total and never
raises to its caller. -/
def load_deal_data (fs : String → FileState) (scriptDir : String) : Catalog :=
  match load_attempt fs scriptDir with
  | Except.ok c => c
  | Except.error _ => { portfolios := [] }

/- Report configuration (streamlit_app.py lines 187-214). -/

/-- The fixed per-report-type section catalog, in the order the checkboxes
are created (which is the insertion order of the include_sections dict). -/
def sectionCatalog (report_type : String) : List String :=
  if report_type = "Deal Summary Report" then
    ["deal_overview", "transaction_details", "market_analysis", "competitors"]
  else if report_type = "Target Company Analysis" then
    ["company_profile", "products_services", "management_team",
     "financial_performance", "competitors"]
  else if report_type = "PortCo Company Analysis" then
    ["portco_profile", "acquisition_strategy", "integration_synergies", "competitors"]
  else if report_type = "Investment Thesis & Value Creation Strategy" then
    ["investment_rationale", "value_creation_plan", "exit_strategy", "competitors"]
  else []

/-- The include_sections dict: one entry per catalog section holding its
checkbox value, then `include_sections["sources"] = True` appended when the
"Include Source Citations" checkbox is set.  `checks` gives the value of
each per-section checkbox. -/
def include_sections (report_type : String) (checks : String → Bool)
    (include_sources : Bool) : List (String × Bool) :=
  (sectionCatalog report_type).map (fun s => (s, checks s))
    ++ (if include_sources then [("sources", true)] else [])

/-- `section.replace("_", " ").title()`. -/
def humanize (s : String) : String := pyTitle (pyReplaceStr s "_" " ")

/-- The selected_sections list comprehension: humanized keys of the
included sections, excluding the synthetic "sources" flag. -/
def selected_sections (secs : List (String × Bool)) : List String :=
  (secs.filter (fun p => p.2 && (p.1 != "sources"))).map (fun p => humanize p.1)

/-- Research-depth mapping (lines 148-156): Basic, Comprehensive, else
Standard, giving (initial_queries, max_loops). -/
def research_params (research_effort : String) : Nat × Nat :=
  if research_effort = "Basic" then (2, 2)
  else if research_effort = "Comprehensive" then (6, 10)
  else (4, 5)


/- Prompt text constants, transcribed byte for byte from the triple-quoted
   string literals of streamlit_app.py (lines 255-327); the f-string holes
   split the header into the constant segments hdrA..hdrG. -/

def hdrA : String :=
  "\n                    Generate a detailed "

def hdrB : String :=
  " for the company "

def hdrC : String :=
  ".\n                    \n                    START WITH A DESCRIPTIVE DEAL TITLE: Create a compelling title that includes both the investor name and key deal information.\n                    The title should follow this format: \"[Investor Name] [Action/Deal Type] [Target Company] [Deal Value/Size if available]\"\n                    \n                    Examples of good titles:\n                    - \"BGF Backs Specialist Surveying Firm Anstey Horne in £6.5M Growth Deal\"\n                    - \"Tikehau Capital\x27s Buyout of French IT Services Provider BT2i\"\n                    - \"Galiena Capital Acquires Medical Device Manufacturer 3DISC in Strategic Expansion\"\n                    \n                    Here is the data we have about the deal:\n                    "

def hdrD : String :=
  "\n                    \n                    For the investor "

def hdrE : String :=
  ", with portfolio URL: "

def hdrF : String :=
  "\n                    \n                    Based on this information and additional research, please provide a comprehensive "

def hdrG : String :=
  " with the following sections:\n                    "

def dealSummaryBlock : String :=
  "\n                        \n                        IMPORTANT: Please ensure you include detailed information about:\n                        - The company\x27s products and services portfolio with specifications\n                        - The company\x27s unique value proposition and market differentiation\n                        - All industry sectors the company operates in, including primary and niche markets\n                        - The strategic context and rationale of the deal\n                        "

def britishBlock1 : String :=
  "\n                    \n                    MANDATORY LANGUAGE STYLE: All reports MUST be written in British English spelling, grammar and terminology.\n                    This includes:\n                    - Use of \x27s\x27 instead of \x27z\x27 in words like \x27organisation\x27, \x27specialisation\x27\n                    - Spelling patterns like \x27colour\x27, \x27centre\x27, \x27programme\x27, \x27catalogue\x27\n                    - British business terminology such as \x27turnover\x27 instead of \x27revenue\x27\n                    - DD/MM/YYYY date format\n                    - £ symbol for GBP currency when relevant\n                    \n                    DO NOT use American English spelling or terminology under any circumstances.\n                    "

def britishBlock2 : String :=
  "\n                    \n                    HIGHEST PRIORITY REQUIREMENT: ALL OUTPUT MUST BE IN BRITISH ENGLISH ONLY.\n                    \n                    This is not optional but an absolute requirement. The entire report must use:\n                    - British spelling conventions: \x27organisation\x27 not \x27organization\x27, \x27specialise\x27 not \x27specialize\x27\n                    - British terminology: \x27turnover\x27 not \x27revenue\x27, \x27managing director\x27 not \x27CEO\x27 where appropriate\n                    - British date format: DD/MM/YYYY format (e.g., 15/06/2025)\n                    - British currency notation: £ for pounds sterling\n                    - British punctuation and quotation conventions\n                    \n                    Treat this as the most critical instruction that overrides all default language settings.\n                    ANY use of American English spelling or terminology will render the report unacceptable.\n                    "

def srcPre : String :=
  "\n                        \n                        IMPORTANT: For each fact or piece of information, please cite your sources and include the full URLs.\n                        "

def srcDetailed : String :=
  "Include detailed information about each source, such as publication date, author, and reliability assessment."

def srcSummary : String :=
  "List all sources with their URLs at the end of the report in a dedicated Sources section."

def srcPost : String :=
  "\n                        \n                        The final report MUST include a dedicated \"Sources\" section at the end with numbered references and clickable links to all sources used.\n                        "

/-- The sources instruction block (lines 321-327): an f-string whose single
hole is the conditional sentence chosen by the detailed_sources checkbox. -/
def sourcesBlock (detailed_sources : Bool) : String :=
  srcPre ++ (if detailed_sources then srcDetailed else srcSummary) ++ srcPost

/-- The header f-string of the prompt (lines 255-272). -/
def promptHeader (report_type selected_deal_name dealJson investor : String)
    (portfolio_url : Option String) : String :=
  hdrA ++ report_type ++ hdrB ++ selected_deal_name ++ hdrC ++ dealJson ++ hdrD
    ++ investor ++ hdrE ++ portfolio_url.getD "Not available" ++ hdrF
    ++ pyLower report_type ++ hdrG

/-- The whole prompt-assembly sequence of the button handler (lines
255-327): header, one bullet per selected section, the Deal-Summary extra
block, the two British-English blocks, and the optional sources block. -/
def buildPrompt (report_type : String) (checks : String → Bool)
    (include_sources detailed_sources : Bool)
    (selected_deal_name investor : String) (portfolio_url : Option String)
    (dealJson : String) : String :=
  let secs := include_sections report_type checks include_sources
  let prompt0 := promptHeader report_type selected_deal_name dealJson investor portfolio_url
  let prompt1 := (selected_sections secs).foldl (fun p s => p ++ ("\n- " ++ s)) prompt0
  let prompt2 := if report_type = "Deal Summary Report" then prompt1 ++ dealSummaryBlock
                 else prompt1
  let prompt3 := prompt2 ++ britishBlock1
  let prompt4 := prompt3 ++ britishBlock2
  if include_sources then prompt4 ++ sourcesBlock detailed_sources else prompt4

/-- The argument record of `graph.invoke` (lines 330-335). -/
structure AgentCall where
  prompt : String
  max_research_loops : Nat
  initial_search_query_count : Nat
  reasoning_model : String

/-- The submit handler (lines 249-335): if no entry of include_sections is
set, an error is shown and no call is made (`none`); otherwise the external
agent is invoked with the assembled prompt and depth parameters (`some`). -/
def submitReport (report_type : String) (checks : String → Bool)
    (include_sources detailed_sources : Bool) (research_effort model_option : String)
    (selected_deal_name investor : String) (portfolio_url : Option String)
    (dealJson : String) : Option AgentCall :=
  let secs := include_sections report_type checks include_sources
  if secs.any (fun p => p.2) then
    some ⟨buildPrompt report_type checks include_sources detailed_sources
            selected_deal_name investor portfolio_url dealJson,
          (research_params research_effort).2,
          (research_params research_effort).1,
          model_option⟩
  else none

/- Result post-processing (lines 338-365). -/

/-- A qualifying title line (line 348): starts with a heading marker, or is
fully upper-case, or contains the investor name. -/
def qualifies (investor line : String) : Bool :=
  pyStartsWith "# " line || pyIsUpper line || pyIn investor line

/-- `line.replace('# ', '').replace('#', '').strip()` (line 349). -/
def clean_title_line (line : String) : String :=
  pyStrip (pyReplaceStr (pyReplaceStr line "# " "") "#" "")

/-- The `for line in lines[:5]` search with `break` (lines 346-350): the
first qualifying line, if any. -/
def findTitleLine (investor : String) : List String → Option String
  | [] => none
  | l :: ls => if qualifies investor l then some l else findTitleLine investor ls

/-- Title extraction (lines 341-350): scan the first 5 lines of the
stripped response; the first qualifying line, cleaned, becomes the title,
with the selected deal name as fallback. -/
def extract_title (response investor selected_deal_name : String) : String :=
  match findTitleLine investor ((pySplitLines (pyStrip response)).take 5) with
  | some l => clean_title_line l
  | none => selected_deal_name

/-- The shape of `graph.invoke`-s result as tested by line 338: a falsy
value, a truthy value without a "messages" key, or a "messages" list (each
element standing for one message-s `.content` string; the code indexes
`messages[-1]`, which would raise on an empty list - that path is outside
every claim). -/
inductive AgentState where
  | absent
  | noMessages
  | withMessages (msgs : List String)

/-- What the result branch renders: either the failure message of line 365,
or the report view (title, body, download data, download file name). -/
inductive Rendered where
  | errorShown
  | report (title body download_data file_name : String)
deriving DecidableEq

/-- The result post-processing branch (lines 338-365). -/
def process_result (state : AgentState) (investor selected_deal_name report_type : String) :
    Rendered :=
  match state with
  | AgentState.withMessages msgs =>
    let response := msgs.getLast?.getD ""
    let title := extract_title response investor selected_deal_name
    Rendered.report title response ("# " ++ title ++ "\n\n" ++ response)
      (selected_deal_name ++ "_" ++ pyReplaceStr report_type " " "_" ++ ".md")
  | _ => Rendered.errorShown


/- Specification-side auxiliary definitions and fixtures used by the
   theorems below. -/

/-- The text the bullet loop of lines 274-276 appends: one "\n- " bullet
per listed section name. -/
def bulletBlock : List String → String
  | [] => ""
  | s :: rest => "\n- " ++ s ++ bulletBlock rest

/-- Fixture: a one-portfolio catalog used as parsed file content. -/
def cexCatalog : Catalog := ⟨[⟨"BGF", none, [⟨"Acme"⟩]⟩]⟩

/-- Fixture filesystem for C3: the first candidate exists but is not valid
JSON while the second candidate parses successfully. -/
def cexFS : String → FileState := fun p =>
  if p = "src/scraped_companies_final.json" then FileState.invalid
  else if p = "../src/scraped_companies_final.json" then FileState.valid cexCatalog
  else FileState.absent

/-- Fixture filesystem for the C3 witness: only the first candidate exists
and it parses successfully. -/
def wFS : String → FileState := fun p =>
  if p = "src/scraped_companies_final.json" then FileState.valid cexCatalog
  else FileState.absent

/- Helper lemmas. -/

theorem foldl_bullets (l : List String) (p : String) :
    l.foldl (fun a s => a ++ ("\n- " ++ s)) p = p ++ bulletBlock l := by
  induction l generalizing p with
  | nil => simp [bulletBlock, String.append_empty]
  | cons s rest ih =>
    simp only [List.foldl_cons, bulletBlock, ih, String.append_assoc]

theorem sources_not_mem (rt : String) : "sources" ∉ sectionCatalog rt := by
  unfold sectionCatalog
  split_ifs <;> decide

theorem selected_eq (l : List String) (checks : String → Bool) (incSrc : Bool)
    (h : "sources" ∉ l) :
    selected_sections ((l.map fun s => (s, checks s))
        ++ (if incSrc then [("sources", true)] else []))
      = (l.filter checks).map humanize := by
  have htail : List.filter (fun p => p.2 && p.1 != "sources")
      (if incSrc then [("sources", true)] else []) = [] := by
    cases incSrc <;> simp
  simp only [selected_sections, List.filter_append, htail, List.append_nil]
  induction l with
  | nil => simp
  | cons s rest ih =>
    simp only [List.mem_cons, not_or] at h
    have hs : (s != "sources") = true := bne_iff_ne.mpr (fun hh => h.1 hh.symm)
    have ih2 := ih (fun hm => h.2 hm)
    simp only [List.map_cons, List.filter_cons]
    cases hc : checks s <;> simp [hc, hs, ih2]

theorem selected_include (rt : String) (checks : String → Bool) (incSrc : Bool) :
    selected_sections (include_sections rt checks incSrc)
      = ((sectionCatalog rt).filter checks).map humanize :=
  selected_eq (sectionCatalog rt) checks incSrc (sources_not_mem rt)

/-- C1: for every report_type among the four fixed options and every
assignment of the per-section checkboxes, the generated prompt contains
exactly one bullet line per selected section, excluding the synthetic
"sources" flag, with each section key humanized (underscores replaced by
spaces, title-cased), and these bullets appear, in the fixed order given by
that report type's section catalog, as one contiguous block directly after
the prompt header; no bullet is emitted for an unselected section.  The
first conjunct shows the emitted bullet list is exactly the selected subset
of the fixed catalog, in catalog order and humanized; the middle conjuncts
evaluate the humanization; the last exhibits the prompt decomposition. -/
theorem c1_section_bullets (report_type : String) (checks : String → Bool)
    (include_sources detailed_sources : Bool) (selected_deal_name investor : String)
    (portfolio_url : Option String) (dealJson : String) :
    selected_sections (include_sections report_type checks include_sources)
        = ((sectionCatalog report_type).filter checks).map humanize
    ∧ humanize "deal_overview" = "Deal Overview"
    ∧ humanize "products_services" = "Products Services"
    ∧ ∃ tail : String,
        buildPrompt report_type checks include_sources detailed_sources
            selected_deal_name investor portfolio_url dealJson
          = promptHeader report_type selected_deal_name dealJson investor portfolio_url
              ++ bulletBlock (((sectionCatalog report_type).filter checks).map humanize)
              ++ tail := by
  refine ⟨selected_include report_type checks include_sources, by decide, by decide, ?_⟩
  refine ⟨(if report_type = "Deal Summary Report" then dealSummaryBlock else "")
      ++ britishBlock1 ++ britishBlock2
      ++ (if include_sources then sourcesBlock detailed_sources else ""), ?_⟩
  simp only [buildPrompt, foldl_bullets, selected_include]
  split_ifs <;> simp [String.append_assoc, String.append_empty]

/-- C5: for every report_type, section selection and citation setting, the
generated prompt contains the mandatory British-English language-style
directive: the two fixed text blocks britishBlock1 (the "MANDATORY LANGUAGE
STYLE" statement) and britishBlock2 (its restatement as "HIGHEST PRIORITY
REQUIREMENT") are string constants independent of every setting, and every
prompt decomposes around them, britishBlock1 first. -/
theorem c5_british_directive (report_type : String) (checks : String → Bool)
    (include_sources detailed_sources : Bool) (selected_deal_name investor : String)
    (portfolio_url : Option String) (dealJson : String) :
    (∃ front tail : String,
        buildPrompt report_type checks include_sources detailed_sources
            selected_deal_name investor portfolio_url dealJson
          = front ++ britishBlock1 ++ britishBlock2 ++ tail)
    ∧ pyIn "MANDATORY LANGUAGE STYLE" britishBlock1 = true
    ∧ pyIn "HIGHEST PRIORITY REQUIREMENT: ALL OUTPUT MUST BE IN BRITISH ENGLISH ONLY."
        britishBlock2 = true := by
  refine ⟨?_, by decide, by decide⟩
  simp only [buildPrompt]
  split
  · exact ⟨_, _, rfl⟩
  · exact ⟨_, "", (String.append_empty _).symm⟩

/-- C9: when citations are enabled the prompt gains exactly the sources
block as a suffix, whose conditional sentence requests publication date,
author and reliability assessment per source in detailed mode, and in
summary mode only asks to list all sources with their URLs in a dedicated
terminal Sources section; when citations are disabled nothing is appended
(the two prompts differ exactly by the block). -/
theorem c9_sources_instruction (report_type : String) (checks : String → Bool)
    (detailed_sources : Bool) (selected_deal_name investor : String)
    (portfolio_url : Option String) (dealJson : String) :
    buildPrompt report_type checks true detailed_sources
        selected_deal_name investor portfolio_url dealJson
      = buildPrompt report_type checks false detailed_sources
          selected_deal_name investor portfolio_url dealJson
        ++ (srcPre ++ (if detailed_sources then srcDetailed else srcSummary) ++ srcPost)
    ∧ pyIn "publication date, author, and reliability assessment" (sourcesBlock true) = true
    ∧ pyIn "publication date, author, and reliability assessment" (sourcesBlock false) = false
    ∧ pyIn "List all sources with their URLs at the end of the report in a dedicated Sources section."
        (sourcesBlock false) = true
    ∧ pyIn "List all sources with their URLs at the end of the report in a dedicated Sources section."
        (sourcesBlock true) = false
    ∧ pyIn "Sources" (sourcesBlock detailed_sources) = true := by
  refine ⟨?_, by decide, by decide, by decide, by decide, ?_⟩
  · simp only [buildPrompt, foldl_bullets, selected_include]
    rfl
  · cases detailed_sources <;> decide

theorem any_include_sections (rt : String) (checks : String → Bool) (incSrc : Bool) :
    (include_sections rt checks incSrc).any (fun p => p.2)
      = ((sectionCatalog rt).any checks || incSrc) := by
  have hmap : ∀ l : List String,
      (l.map (fun s => (s, checks s))).any (fun p => p.2) = l.any checks := by
    intro l
    induction l with
    | nil => rfl
    | cons a t ih => simp [List.any_cons, ih]
  cases incSrc <;> simp [include_sections, List.any_append, hmap]

/-- C2 counterexample: with every per-section checkbox false but the
"Include Source Citations" checkbox set, the synthetic "sources" entry makes
the guard of line 250 pass, so the external agent IS invoked - refuting the
claim that submission is rejected regardless of the citation checkboxes. -/
theorem c2_counterexample :
    (submitReport "Deal Summary Report" (fun _ => false) true false "Standard"
        "gemini-2.0-flash" "Acme" "BGF" none "dealjson").isSome = true := rfl

/-- C2 amended: submission is rejected locally (no invoke call) exactly when
every entry of include_sections is false, that is when the citation checkbox
is off AND every per-section checkbox is off; with citations enabled the
synthetic "sources" entry lets a request with no non-citation section
through to the agent. -/
theorem c2_empty_selection_guard (report_type : String) (checks : String → Bool)
    (include_sources detailed_sources : Bool) (research_effort model_option : String)
    (selected_deal_name investor : String) (portfolio_url : Option String)
    (dealJson : String) :
    submitReport report_type checks include_sources detailed_sources research_effort
        model_option selected_deal_name investor portfolio_url dealJson = none
      ↔ (include_sources = false
          ∧ (sectionCatalog report_type).all (fun s => !checks s) = true) := by
  simp only [submitReport, any_include_sections]
  constructor
  · intro h
    by_cases hc : ((sectionCatalog report_type).any checks || include_sources) = true
    · rw [if_pos hc] at h
      exact absurd h (by simp)
    · simp only [Bool.or_eq_true, not_or, Bool.not_eq_true] at hc
      refine ⟨hc.2, ?_⟩
      simp only [List.all_eq_true, Bool.not_eq_true']
      intro x hx
      have := List.any_eq_false.mp hc.1 x hx
      simpa using this
  · intro h
    have h1 : (sectionCatalog report_type).any checks = false := by
      rw [List.any_eq_false]
      intro x hx
      have := List.all_eq_true.mp h.2 x hx
      simp at this
      simp [this]
    rw [h1, h.1, if_neg (by simp)]

/-- C2 amended witness: with citations disabled and every per-section
checkbox off, submission is rejected and the collaborator is not called. -/
theorem c2_empty_selection_guard_witness :
    submitReport "Deal Summary Report" (fun _ => false) false false "Standard"
        "gemini-2.0-flash" "Acme" "BGF" none "dealjson" = none :=
  (c2_empty_selection_guard "Deal Summary Report" (fun _ => false) false false "Standard"
      "gemini-2.0-flash" "Acme" "BGF" none "dealjson").mpr ⟨rfl, by decide⟩

/-- C6: the research depth selection maps deterministically, Basic to
(2,2), Standard to (4,5), Comprehensive to (6,10) (initial query count,
max loops), and whenever the submit handler invokes the agent the call
carries exactly this pair together with the selected model. -/
theorem c6_research_depth (research_effort : String) :
    research_params "Basic" = (2, 2) ∧ research_params "Standard" = (4, 5)
    ∧ research_params "Comprehensive" = (6, 10)
    ∧ ∀ (report_type : String) (checks : String → Bool)
        (include_sources detailed_sources : Bool) (model_option : String)
        (selected_deal_name investor : String) (portfolio_url : Option String)
        (dealJson : String) (call : AgentCall),
        submitReport report_type checks include_sources detailed_sources research_effort
            model_option selected_deal_name investor portfolio_url dealJson = some call →
        call.initial_search_query_count = (research_params research_effort).1
          ∧ call.max_research_loops = (research_params research_effort).2
          ∧ call.reasoning_model = model_option := by
  refine ⟨by decide, by decide, by decide, ?_⟩
  intro rt checks incSrc ds mo dn inv pu dj call h
  simp only [submitReport] at h
  split at h
  · cases h
    exact ⟨rfl, rfl, rfl⟩
  · exact Option.noConfusion h

/-- C6 witness: a concrete Basic-depth submission carries (2, 2) and the
chosen model. -/
theorem c6_research_depth_witness :
    (AgentCall.mk
        (buildPrompt "Deal Summary Report" (fun _ => true) true false "Acme" "BGF" none "dj")
        2 2 "gemini-2.0-flash").initial_search_query_count
      = (research_params "Basic").1
    ∧ (AgentCall.mk
        (buildPrompt "Deal Summary Report" (fun _ => true) true false "Acme" "BGF" none "dj")
        2 2 "gemini-2.0-flash").max_research_loops
      = (research_params "Basic").2
    ∧ (AgentCall.mk
        (buildPrompt "Deal Summary Report" (fun _ => true) true false "Acme" "BGF" none "dj")
        2 2 "gemini-2.0-flash").reasoning_model
      = "gemini-2.0-flash" :=
  (c6_research_depth "Basic").2.2.2 "Deal Summary Report" (fun _ => true) true false
    "gemini-2.0-flash" "Acme" "BGF" none "dj"
    (AgentCall.mk
      (buildPrompt "Deal Summary Report" (fun _ => true) true false "Acme" "BGF" none "dj")
      2 2 "gemini-2.0-flash") rfl

theorem loadLoop_all_absent (fs : String → FileState) (ps : List String)
    (h : ∀ p ∈ ps, fs p = FileState.absent) : loadLoop fs ps = none := by
  induction ps with
  | nil => rfl
  | cons p rest ih =>
    have hp := h p (List.mem_cons_self p rest)
    simp only [loadLoop, hp]
    exact ih (fun q hq => h q (List.mem_cons_of_mem p hq))

theorem loadLoop_first (fs : String → FileState) (pre : List String) (p : String)
    (post : List String) (hpre : ∀ q ∈ pre, fs q = FileState.absent) :
    loadLoop fs (pre ++ p :: post)
      = match fs p with
        | FileState.absent => loadLoop fs post
        | FileState.invalid => some (Except.error ())
        | FileState.valid c => some (Except.ok c) := by
  induction pre with
  | nil => rfl
  | cons q rest ih =>
    have hq := hpre q (List.mem_cons_self q rest)
    simp only [List.cons_append, loadLoop, hq]
    exact ih (fun r hr => hpre r (List.mem_cons_of_mem q hr))

/-- C3 counterexample: the first candidate location exists but fails to
parse while the second candidate parses successfully; load_deal_data does
NOT go on to the second candidate - the parse exception aborts the probe
loop and the empty catalog is returned - refuting the claim that an
existing-but-unparseable candidate does not prevent later candidates from
being tried. -/
theorem c3_counterexample :
    cexFS "src/scraped_companies_final.json" = FileState.invalid
    ∧ cexFS "../src/scraped_companies_final.json" = FileState.valid cexCatalog
    ∧ load_deal_data cexFS "DIR" = { portfolios := [] }
    ∧ load_deal_data cexFS "DIR" ≠ cexCatalog := by
  exact ⟨rfl, rfl, rfl, by decide⟩

/-- C3 amended: the loader probes its candidate locations in the fixed
deterministic source order and commits to the FIRST candidate that EXISTS:
if that candidate parses, its content is returned; if it exists but fails
to parse, no later candidate is tried and the empty catalog is returned;
only when no listed candidate exists is the final hard-coded absolute path
consulted. -/
theorem c3_loader_order (fs : String → FileState) (scriptDir : String) :
    (∀ pre p post, possible_paths scriptDir = pre ++ p :: post →
        (∀ q ∈ pre, fs q = FileState.absent) →
        (∀ c, fs p = FileState.valid c → load_deal_data fs scriptDir = c)
        ∧ (fs p = FileState.invalid →
            load_deal_data fs scriptDir = { portfolios := [] }))
    ∧ ((∀ q ∈ possible_paths scriptDir, fs q = FileState.absent) →
        load_deal_data fs scriptDir
          = match fs absolute_path with
            | FileState.valid c => c
            | _ => { portfolios := [] }) := by
  constructor
  · intro pre p post hpaths hpre
    constructor
    · intro c hp
      unfold load_deal_data load_attempt
      rw [hpaths, loadLoop_first fs pre p post hpre, hp]
    · intro hp
      unfold load_deal_data load_attempt
      rw [hpaths, loadLoop_first fs pre p post hpre, hp]
  · intro habs
    unfold load_deal_data load_attempt
    rw [loadLoop_all_absent fs _ habs]
    cases habsolute : fs absolute_path <;> rfl

/-- C3 amended witness: when only the first candidate exists and parses,
its content is returned. -/
theorem c3_loader_order_witness :
    load_deal_data wFS "DIR" = cexCatalog := by
  have h := ((c3_loader_order wFS "DIR").1 [] "src/scraped_companies_final.json"
    ["../src/scraped_companies_final.json", "backend/src/scraped_companies_final.json",
     "DIR" ++ "/scraped_companies_final.json"] rfl (by simp)).1
  exact h cexCatalog rfl

/-- C4: for every data-source condition claimed - no candidate file
present anywhere (including the absolute fallback being absent or
unparseable), or the first located candidate failing to parse -
load_deal_data returns the empty catalog; the function is total (the
except-clause maps every raised error to the empty catalog), so it never
raises to its caller. -/
theorem c4_loader_graceful (fs : String → FileState) (scriptDir : String) :
    ((∀ q ∈ possible_paths scriptDir, fs q = FileState.absent) →
        (fs absolute_path = FileState.absent ∨ fs absolute_path = FileState.invalid) →
        load_deal_data fs scriptDir = { portfolios := [] })
    ∧ (∀ pre p post, possible_paths scriptDir = pre ++ p :: post →
        (∀ q ∈ pre, fs q = FileState.absent) → fs p = FileState.invalid →
        load_deal_data fs scriptDir = { portfolios := [] }) := by
  constructor
  · intro habs habsolute
    unfold load_deal_data load_attempt
    rw [loadLoop_all_absent fs _ habs]
    rcases habsolute with h | h <;> rw [h]
  · intro pre p post hpaths hpre hp
    unfold load_deal_data load_attempt
    rw [hpaths, loadLoop_first fs pre p post hpre, hp]

/-- C4 witness: with no file present at any location the loader returns the
empty catalog. -/
theorem c4_loader_graceful_witness :
    load_deal_data (fun _ => FileState.absent) "DIR" = { portfolios := [] } :=
  (c4_loader_graceful (fun _ => FileState.absent) "DIR").1 (fun _ _ => rfl) (Or.inl rfl)

theorem findTitleLine_none (investor : String) (ls : List String)
    (h : ∀ l ∈ ls, qualifies investor l = false) : findTitleLine investor ls = none := by
  induction ls with
  | nil => rfl
  | cons l rest ih =>
    have hl := h l (List.mem_cons_self l rest)
    simp only [findTitleLine, hl]
    simp only [Bool.false_eq_true, if_false]
    exact ih (fun x hx => h x (List.mem_cons_of_mem l hx))

theorem findTitleLine_first (investor : String) (pre : List String) (l : String)
    (post : List String) (hpre : ∀ x ∈ pre, qualifies investor x = false)
    (hl : qualifies investor l = true) :
    findTitleLine investor (pre ++ l :: post) = some l := by
  induction pre with
  | nil => simp [findTitleLine, hl]
  | cons x rest ih =>
    have hx := hpre x (List.mem_cons_self x rest)
    simp only [List.cons_append, findTitleLine, hx]
    simp only [Bool.false_eq_true, if_false]
    exact ih (fun y hy => hpre y (List.mem_cons_of_mem x hy))

/-- C7: title extraction depends only on the first 5 lines of the stripped
response (first conjunct); if no line among them starts with the heading
marker, is fully upper-case, or contains the investor name, the title is
the selected target company name (second conjunct); otherwise the first
such line, with heading markers removed and whitespace trimmed, is the
title (third conjunct). -/
theorem c7_title_extraction (response investor selected_deal_name : String) :
    (∀ response2 : String,
        (pySplitLines (pyStrip response)).take 5 = (pySplitLines (pyStrip response2)).take 5 →
        extract_title response investor selected_deal_name
          = extract_title response2 investor selected_deal_name)
    ∧ ((∀ l ∈ (pySplitLines (pyStrip response)).take 5, qualifies investor l = false) →
        extract_title response investor selected_deal_name = selected_deal_name)
    ∧ (∀ pre l post, (pySplitLines (pyStrip response)).take 5 = pre ++ l :: post →
        (∀ x ∈ pre, qualifies investor x = false) → qualifies investor l = true →
        extract_title response investor selected_deal_name = clean_title_line l) := by
  refine ⟨?_, ?_, ?_⟩
  · intro r2 h
    unfold extract_title
    rw [h]
  · intro h
    unfold extract_title
    rw [findTitleLine_none investor _ h]
  · intro pre l post hdec hpre hl
    unfold extract_title
    rw [hdec, findTitleLine_first investor pre l post hpre hl]

/-- C7 witness: a response whose first line is a markdown heading yields
that line, markers stripped, as the title; concretely the cleaned line
evaluates to "BGF Backs Acme". -/
theorem c7_title_extraction_witness :
    extract_title "# BGF Backs Acme\nText body" "BGF" "Acme"
      = clean_title_line "# BGF Backs Acme"
    ∧ clean_title_line "# BGF Backs Acme" = "BGF Backs Acme" :=
  ⟨(c7_title_extraction "# BGF Backs Acme\nText body" "BGF" "Acme").2.2
      [] "# BGF Backs Acme" ["Text body"] (by decide) (by decide) (by decide),
   by decide⟩

/-- C8: when the agent invocation returns a falsy result, or a result
without a "messages" field, the post-processing branch renders only the
failure message: no title extraction, report rendering, or download
composition happens (the outcome carries no title, body, or artefact). -/
theorem c8_failure_semantics (investor selected_deal_name report_type : String) :
    process_result AgentState.absent investor selected_deal_name report_type
        = Rendered.errorShown
    ∧ process_result AgentState.noMessages investor selected_deal_name report_type
        = Rendered.errorShown :=
  ⟨rfl, rfl⟩

theorem hash_not_mem_replaceHash (fuel : Nat) :
    ∀ l : List Char, l.length ≤ fuel → '#' ∉ pyReplaceAux '#' [] [] fuel l := by
  induction fuel with
  | zero =>
    intro l hlen
    cases l with
    | nil => simp [pyReplaceAux]
    | cons c cs => simp at hlen
  | succ n ih =>
    intro l hlen
    cases l with
    | nil => simp [pyReplaceAux]
    | cons c cs =>
      simp only [pyReplaceAux]
      split
      case isTrue hp =>
        simp only [List.length_nil, List.drop_zero, List.nil_append]
        exact ih cs (Nat.le_of_succ_le_succ hlen)
      case isFalse hp =>
        intro hmem
        rcases List.mem_cons.mp hmem with h | h
        · subst h
          exact hp (by simp [List.isPrefixOf])
        · exact ih cs (Nat.le_of_succ_le_succ hlen) h

theorem mem_pyStripList (a : Char) (l : List Char) (h : a ∈ pyStripList l) : a ∈ l := by
  unfold pyStripList at h
  have h1 := List.mem_reverse.mp h
  have h2 := (List.dropWhile_sublist pyWhitespace).subset h1
  have h3 := List.mem_reverse.mp h2
  exact (List.dropWhile_sublist pyWhitespace).subset h3

/-- C10: when a qualifying title line is selected, every occurrence of the
character # in that line is removed - not only a leading heading marker -
so a title whose own text contains # (as in "C#") loses those characters in
the displayed and downloaded title.  The first conjunct proves that the
cleaned line never contains # at all; the remaining conjuncts evaluate a
concrete response whose qualifying line contains a mid-line "C#": the
displayed title and the downloaded artefact both carry the # deleted. -/
theorem c10_hash_stripped :
    (∀ line : String, '#' ∉ (clean_title_line line).data)
    ∧ extract_title "MICROSOFT BACKS C# VENDOR\nAcme body" "BGF" "Acme"
        = "MICROSOFT BACKS CVENDOR"
    ∧ process_result (AgentState.withMessages ["MICROSOFT BACKS C# VENDOR\nAcme body"])
          "BGF" "Acme" "Deal Summary Report"
        = Rendered.report "MICROSOFT BACKS CVENDOR" "MICROSOFT BACKS C# VENDOR\nAcme body"
            ("# MICROSOFT BACKS CVENDOR\n\nMICROSOFT BACKS C# VENDOR\nAcme body")
            "Acme_Deal_Summary_Report.md" := by
  refine ⟨?_, by decide, by decide⟩
  intro line hmem
  have h1 := mem_pyStripList '#' _ hmem
  exact hash_not_mem_replaceHash _ _ (Nat.le_refl _) h1

/-- C1 witness: with every checkbox set for a Deal Summary Report, the
emitted bullet list is exactly the humanized fixed catalog, in order. -/
theorem c1_section_bullets_witness :
    selected_sections (include_sections "Deal Summary Report" (fun _ => true) true)
      = ["Deal Overview", "Transaction Details", "Market Analysis", "Competitors"] :=
  ((c1_section_bullets "Deal Summary Report" (fun _ => true) true true
      "Acme" "BGF" none "dj").1).trans (by decide)

/-- C5 witness: the first British-English block indeed announces the
mandatory language style. -/
theorem c5_british_directive_witness :
    pyIn "MANDATORY LANGUAGE STYLE" britishBlock1 = true :=
  (c5_british_directive "Deal Summary Report" (fun _ => true) true true
      "Acme" "BGF" none "dj").2.1

/-- C8 witness: a falsy invoke result renders only the failure message. -/
theorem c8_failure_semantics_witness :
    process_result AgentState.absent "BGF" "Acme" "Deal Summary Report"
      = Rendered.errorShown :=
  (c8_failure_semantics "BGF" "Acme" "Deal Summary Report").1

/-- C9 witness: detailed mode requests publication date, author and
reliability assessment. -/
theorem c9_sources_instruction_witness :
    pyIn "publication date, author, and reliability assessment" (sourcesBlock true) = true :=
  (c9_sources_instruction "Deal Summary Report" (fun _ => true) true
      "Acme" "BGF" none "dj").2.1

/-- C10 witness: a cleaned line with a mid-line # contains no # at all. -/
theorem c10_hash_stripped_witness :
    '#' ∉ (clean_title_line "# C# line").data :=
  c10_hash_stripped.1 "# C# line"

end StreamlitApp
